import Mathlib

/-!
A shallow embedding of the PVA connectivity test suite: the result data
model (src/models.py), the protocol adapters (src/infrastructure), the
kubectl remote-execution adapter, the base service use case
(src/usecases/base_usecase.py) and the CLI orchestrator
(src/handlers/cli_handler.py), together with theorems checking the
specification's claims against the embedded code.

External effects (network calls, subprocess execution, the wall clock)
are passed in explicitly as environment values: a fallible underlying
operation is an `Except String α` (the `error` case is the message of the
exception the Python code would catch), wall-clock deltas are rationals
(seconds), and the millisecond clock used for correlation tokens is a
natural number.
-/

/-! ## Python runtime primitives -/

/-- Decimal digit characters of a natural number, with explicit fuel so the
definition is structurally recursive and reduces in the kernel; fuel
`n + 1` always suffices. -/
def decimalAux : Nat → Nat → List Char
  | 0, _ => []
  | fuel + 1, n =>
    if n < 10 then [Nat.digitChar n]
    else decimalAux fuel (n / 10) ++ [Nat.digitChar (n % 10)]

/-- Embedding of Python `str(n)` for a non-negative int `n`. -/
def pyIntStr (n : Nat) : String := ⟨decimalAux (n + 1) n⟩

/-- Embedding of Python `s.startswith(pre)`. -/
def pyStartsWith (s pre : String) : Bool := pre.data.isPrefixOf s.data

/-- Embedding of Python `sub in s` (substring containment). -/
def pyContainsStr (s sub : String) : Bool :=
  (List.range (s.data.length + 1)).any fun i => sub.data.isPrefixOf (s.data.drop i)

/-- Embedding of Python `s.strip()`: whitespace removed from both ends. -/
def pyStrip (s : String) : String :=
  ⟨((s.data.dropWhile Char.isWhitespace).reverse.dropWhile Char.isWhitespace).reverse⟩

/-- Splitting a character list at every occurrence of `c`
(embedding of Python `s.split(c)`). -/
def splitOnChar (c : Char) : List Char → List (List Char)
  | [] => [[]]
  | x :: xs =>
    match splitOnChar c xs with
    | [] => [[]]
    | g :: gs => if x == c then [] :: g :: gs else (x :: g) :: gs

/-- Replace every occurrence of `pat` by `rep` in `s`, with fuel
(embedding of Python `s.replace(pat, rep)` for a non-empty `pat`). -/
def replaceAux : Nat → List Char → List Char → List Char → List Char
  | 0, _, _, s => s
  | fuel + 1, pat, rep, s =>
    match s with
    | [] => []
    | x :: xs =>
      if pat.isPrefixOf (x :: xs) then
        rep ++ replaceAux fuel pat rep ((x :: xs).drop pat.length)
      else x :: replaceAux fuel pat rep xs

/-- Embedding of Python `s.replace(pat, rep)`. -/
def pyReplace (s pat rep : String) : String :=
  ⟨replaceAux (s.data.length + 1) pat.data rep.data s.data⟩

/-! ### Properties of `pyIntStr` -/

theorem decimalAux_ne_nil (fuel n : Nat) (h : n < fuel) : decimalAux fuel n ≠ [] := by
  match fuel with
  | f + 1 =>
    unfold decimalAux
    by_cases h10 : n < 10 <;> simp [h10]

theorem digitChar_inj_lt :
    ∀ a < 10, ∀ b < 10, Nat.digitChar a = Nat.digitChar b → a = b := by decide

theorem decimalAux_inj :
    ∀ fuel₁ fuel₂ a b, a < fuel₁ → b < fuel₂ →
      decimalAux fuel₁ a = decimalAux fuel₂ b → a = b := by
  intro fuel₁
  induction fuel₁ with
  | zero => intro _ a _ ha _ _; omega
  | succ f ih =>
    intro fuel₂ a b ha hb heq
    match fuel₂ with
    | g + 1 =>
      unfold decimalAux at heq
      by_cases ha10 : a < 10 <;> by_cases hb10 : b < 10
      · simp only [ha10, hb10, if_true] at heq
        exact digitChar_inj_lt a ha10 b hb10 (List.singleton_injective heq)
      · simp only [ha10, hb10, if_true, if_false] at heq
        have hne := decimalAux_ne_nil g (b / 10) (by omega)
        have hlen := congrArg List.length heq
        simp only [List.length_append, List.length_singleton, List.length_cons] at hlen
        have hzero : (decimalAux g (b / 10)).length = 0 := by omega
        exact absurd (List.length_eq_zero.mp hzero) hne
      · simp only [ha10, hb10, if_true, if_false] at heq
        have hne := decimalAux_ne_nil f (a / 10) (by omega)
        have hlen := congrArg List.length heq
        simp only [List.length_append, List.length_singleton, List.length_cons] at hlen
        have hzero : (decimalAux f (a / 10)).length = 0 := by omega
        exact absurd (List.length_eq_zero.mp hzero) hne
      · simp only [ha10, hb10, if_false] at heq
        rw [← List.concat_eq_append, ← List.concat_eq_append] at heq
        have h1 : decimalAux f (a / 10) = decimalAux g (b / 10) ∧
            Nat.digitChar (a % 10) = Nat.digitChar (b % 10) := by
          have := List.concat_inj.mp heq
          exact this
        have hdiv : a / 10 = b / 10 :=
          ih g (a / 10) (b / 10) (by omega) (by omega) h1.1
        have hmod : a % 10 = b % 10 :=
          digitChar_inj_lt _ (Nat.mod_lt _ (by omega)) _ (Nat.mod_lt _ (by omega)) h1.2
        omega

theorem pyIntStr_inj {a b : Nat} (h : pyIntStr a = pyIntStr b) : a = b := by
  have hd : decimalAux (a + 1) a = decimalAux (b + 1) b := congrArg String.data h
  exact decimalAux_inj (a + 1) (b + 1) a b (Nat.lt_succ_self a) (Nat.lt_succ_self b) hd

/-! ## Metadata dictionaries

Metadata and message payloads in the source are Python `dict`s with string
keys; they are embedded as ordered association lists with the `dict`
assignment/lookup semantics (assignment overwrites in place or appends at
the end). -/

/-- A metadata value (the source stores strings, ints and the HTTP header
dict in these fields). -/
inductive Value where
  | str : String → Value
  | num : Nat → Value
  | strMap : List (String × String) → Value
  deriving DecidableEq, Repr

abbrev Metadata := List (String × Value)

/-- Python `d[k] = v`: overwrite the existing entry or append a new one. -/
def setKey (m : Metadata) (k : String) (v : Value) : Metadata :=
  if m.any (fun p => p.1 == k) then m.map (fun p => if p.1 == k then (k, v) else p)
  else m ++ [(k, v)]

/-- Python `d.get(k)` / `d[k]` lookup. -/
def getKey (m : Metadata) (k : String) : Option Value :=
  (m.find? (fun p => p.1 == k)).map Prod.snd

/-- Python `d.update(extra)`: entries of `extra` overwrite those of `m`. -/
def updateDict (m extra : Metadata) : Metadata :=
  extra.foldl (fun acc p => setKey acc p.1 p.2) m

/-! ## src/models.py — result data model -/

/-- `TestStatus` (models.py line 10). -/
inductive TestStatus where
  | passed
  | failed
  | skipped
  | error
  deriving DecidableEq, Repr

/-- `TestCategory` (models.py line 18). -/
inductive TestCategory where
  | connectivity
  | authentication
  | functional
  | performance
  deriving DecidableEq, Repr

/-- `Protocol` (models.py line 26). -/
inductive Protocol where
  | http
  | https
  | kafka
  | rabbitmq
  | postgresql
  | elasticsearch
  | sftp
  | memcached
  deriving DecidableEq, Repr

/-- `TestResult` (models.py line 38): one executed check. `timestamp`
(`datetime.utcnow()`) is modelled as a natural clock tick. -/
structure TestResult where
  test_name : String
  service_name : String
  category : TestCategory
  protocol : Protocol
  status : TestStatus
  duration_ms : ℚ
  message : Option String := none
  error : Option String := none
  metadata : Metadata := []
  timestamp : Nat := 0
  deriving DecidableEq, Repr

/-- `ServiceTestSuite` (models.py line 68). The `namespace` field is named
`ns` because `namespace` is a Lean keyword. -/
structure ServiceTestSuite where
  service_name : String
  ns : String
  results : List TestResult := []
  started_at : Option Nat := none
  completed_at : Option Nat := none
  deriving DecidableEq, Repr

/-- `ServiceTestSuite.passed_count` (models.py line 85). -/
def ServiceTestSuite.passed_count (s : ServiceTestSuite) : Nat :=
  s.results.countP (fun r => r.status == TestStatus.passed)

/-- `ServiceTestSuite.failed_count` (models.py line 89). -/
def ServiceTestSuite.failed_count (s : ServiceTestSuite) : Nat :=
  s.results.countP (fun r => r.status == TestStatus.failed)

/-- `ServiceTestSuite.error_count` (models.py line 93). -/
def ServiceTestSuite.error_count (s : ServiceTestSuite) : Nat :=
  s.results.countP (fun r => r.status == TestStatus.error)

/-- `ServiceTestSuite.skipped_count` (models.py line 97). -/
def ServiceTestSuite.skipped_count (s : ServiceTestSuite) : Nat :=
  s.results.countP (fun r => r.status == TestStatus.skipped)

/-- `ServiceTestSuite.total_count` (models.py line 101). -/
def ServiceTestSuite.total_count (s : ServiceTestSuite) : Nat :=
  s.results.length

/-- `ServiceTestSuite.success_rate` (models.py line 105): percentage of
passed checks, `0.0` for an empty suite. -/
def ServiceTestSuite.success_rate (s : ServiceTestSuite) : ℚ :=
  if s.total_count = 0 then 0
  else ((s.passed_count : ℚ) / (s.total_count : ℚ)) * 100

/-- `TestExecutionReport` (models.py line 129). -/
structure TestExecutionReport where
  environment : String
  execution_id : String
  suites : List ServiceTestSuite := []
  started_at : Option Nat := none
  completed_at : Option Nat := none
  deriving DecidableEq, Repr

/-- `TestExecutionReport.total_tests` (models.py line 146). -/
def TestExecutionReport.total_tests (r : TestExecutionReport) : Nat :=
  (r.suites.map ServiceTestSuite.total_count).sum

/-- `TestExecutionReport.total_passed` (models.py line 150). -/
def TestExecutionReport.total_passed (r : TestExecutionReport) : Nat :=
  (r.suites.map ServiceTestSuite.passed_count).sum

/-- `TestExecutionReport.total_failed` (models.py line 154). -/
def TestExecutionReport.total_failed (r : TestExecutionReport) : Nat :=
  (r.suites.map ServiceTestSuite.failed_count).sum

/-- `TestExecutionReport.total_errors` (models.py line 158). -/
def TestExecutionReport.total_errors (r : TestExecutionReport) : Nat :=
  (r.suites.map ServiceTestSuite.error_count).sum

/-- Modelled from the spec: `TestExecutionReport` defines no
`total_skipped` property in models.py; the claim describes the report's
total skipped count as "the sum of the corresponding per-suite count",
mirroring `total_passed`/`total_failed`/`total_errors`, which is what this
definition is. -/
def TestExecutionReport.total_skipped (r : TestExecutionReport) : Nat :=
  (r.suites.map ServiceTestSuite.skipped_count).sum

/-- `TestExecutionReport.overall_success_rate` (models.py line 162). -/
def TestExecutionReport.overall_success_rate (r : TestExecutionReport) : ℚ :=
  if r.total_tests = 0 then 0
  else ((r.total_passed : ℚ) / (r.total_tests : ℚ)) * 100

/-- Every record carries exactly one of the four statuses, so the four
per-status counts of a result list always sum to its length. -/
theorem count_status_partition (rs : List TestResult) :
    rs.countP (fun r => r.status == TestStatus.passed) +
      rs.countP (fun r => r.status == TestStatus.failed) +
      rs.countP (fun r => r.status == TestStatus.error) +
      rs.countP (fun r => r.status == TestStatus.skipped) = rs.length := by
  induction rs with
  | nil => rfl
  | cons r rs ih =>
    simp only [List.countP_cons, List.length_cons]
    cases h : r.status <;> simp [h] <;> omega

/-! ## src/infrastructure/base_adapter.py -/

/-- `ConnectionResult` (base_adapter.py line 17): the Outcome of one probe.
`duration_ms` is `(time.time() - start_time) * 1000`, embedded with the
wall-clock delta as a rational number of seconds. -/
structure ConnectionResult where
  success : Bool
  duration_ms : ℚ
  message : Option String := none
  error : Option String := none
  metadata : Metadata := []
  deriving DecidableEq, Repr

/-! ## src/infrastructure/kubectl_adapter.py -/

/-- `(returncode, stdout, stderr)` as returned by
`KubectlAdapter.exec_command` (kubectl_adapter.py line 63). That method
already converts a 30s subprocess timeout and a missing kubectl binary
into a non-zero return code with an explanatory stderr, so an `ExecResult`
covers every way the remote command can come back. -/
structure ExecResult where
  rc : Int
  stdout : String
  stderr : String
  deriving DecidableEq, Repr

/-- What `subprocess.run(['kubectl', 'get', 'pods', ...])` does in
`KubectlAdapter.find_pod` (kubectl_adapter.py line 48): completes with
stdout, times out (`subprocess.TimeoutExpired`), or the kubectl binary is
absent (`FileNotFoundError`). -/
inductive KubectlGetPods where
  | lines : String → KubectlGetPods
  | timeout : KubectlGetPods
  | notInstalled : KubectlGetPods
  deriving DecidableEq, Repr

/-- `KubectlAdapter.find_pod` (kubectl_adapter.py line 26): the name of the
first running pod matching the app label, or the `RuntimeError` message
raised when none is found, kubectl times out, or kubectl is missing. -/
def KubectlAdapter.find_pod (ns app_label : String) (get : KubectlGetPods) :
    Except String String :=
  match get with
  | .timeout =>
    .error ("kubectl timed out looking for app=" ++ app_label ++ " in " ++ ns)
  | .notInstalled => .error "kubectl is not installed or not in PATH"
  | .lines stdout =>
    let pods := (((splitOnChar '\n' (pyStrip stdout).data).map
      (fun l => pyStrip ⟨l⟩)).filter (fun p => p ≠ ""))
    match pods with
    | [] =>
      .error ("No running pod found for app=" ++ app_label ++ " in namespace " ++ ns)
    | p :: _ => .ok (pyReplace p "pod/" "")

/-- `KubectlAdapter.test_tcp` (kubectl_adapter.py line 80): bash /dev/tcp
probe inside the pod. `r` is the exec result of the shell one-liner,
`elapsed` the wall-clock delta in seconds. -/
def KubectlAdapter.test_tcp (ns pod host : String) (port : Nat) (r : ExecResult)
    (elapsed : ℚ) : ConnectionResult :=
  let ok := r.rc == 0 && pyContainsStr r.stdout "ok"
  { success := ok
    duration_ms := elapsed * 1000
    message := some (if ok then
        "TCP " ++ host ++ ":" ++ pyIntStr port ++ " reachable from pod " ++ pod
      else
        "TCP " ++ host ++ ":" ++ pyIntStr port ++ " unreachable from pod " ++ pod)
    error := if ok then none else some (pyStrip r.stderr)
    metadata := [("host", Value.str host), ("port", Value.num port),
      ("pod", Value.str pod), ("namespace", Value.str ns),
      ("mode", Value.str "kubectl")] }

/-- A URL together with its `urllib.parse.urlparse` decomposition (the
parsing itself is the external standard library). -/
structure Url where
  raw : String
  scheme : String
  hostname : Option String
  port : Option Nat
  deriving DecidableEq, Repr

/-- `KubectlAdapter._test_http_fallback_tcp` (kubectl_adapter.py line 179):
TCP probe against the URL's parsed host/port when curl is absent, with the
fallback reason recorded in the metadata and the message prefixed. -/
def KubectlAdapter.test_http_fallback_tcp (ns pod : String) (u : Url)
    (tcp : ExecResult) (tcpElapsed : ℚ) : ConnectionResult :=
  let host := u.hostname.getD ""
  let port := u.port.getD (if u.scheme = "https" then 443 else 80)
  let r := KubectlAdapter.test_tcp ns pod host port tcp tcpElapsed
  let r := { r with
    metadata := setKey (setKey r.metadata "fallback"
      (Value.str "tcp (curl not available)")) "url" (Value.str u.raw) }
  match r.message with
  | some m => { r with message := some ("HTTP fallback to TCP: " ++ m) }
  | none => r

/-- `KubectlAdapter.test_http` (kubectl_adapter.py line 128): curl probe
inside the pod; exit code 127 (binary absent) falls back to the TCP probe.
`curl` is the exec result of the curl command, `tcp` the exec result the
fallback TCP one-liner would produce. -/
def KubectlAdapter.test_http (ns pod : String) (u : Url) (curl tcp : ExecResult)
    (curlElapsed tcpElapsed : ℚ) : ConnectionResult :=
  if curl.rc == 127 then
    KubectlAdapter.test_http_fallback_tcp ns pod u tcp tcpElapsed
  else
    let status_code := pyStrip curl.stdout
    let ok := curl.rc == 0 && pyStartsWith status_code "2"
    { success := ok
      duration_ms := curlElapsed * 1000
      message := some ("HTTP " ++ u.raw ++ " → " ++ status_code ++ " from pod " ++ pod)
      error := if ok then none else some (pyStrip curl.stderr)
      metadata := [("url", Value.str u.raw), ("status_code", Value.str status_code),
        ("pod", Value.str pod), ("namespace", Value.str ns),
        ("mode", Value.str "kubectl")] }

/-! ## src/infrastructure/http_adapter.py -/

/-- The kubectl execution context injected into an adapter's config by
`BaseServiceUseCase._k` (the `_kubectl` dict: executor, namespace, pod). -/
structure KubectlCtx where
  ns : String
  pod : String
  deriving DecidableEq, Repr

/-- The slice of an HTTP adapter's config that `test_connectivity` reads:
`base_url` (kept together with its urlparse decomposition, which the
kubectl fallback path needs) and the optional `_kubectl` context. -/
structure HTTPConfig where
  base_url : Url
  kubectl : Option KubectlCtx := none
  deriving DecidableEq, Repr

/-- What the underlying `requests.Session.head` call does in
`HTTPAdapter.test_connectivity` (http_adapter.py line 43): a response with
a status code and headers, or one of the exceptions the adapter catches. -/
inductive HttpResponse where
  | status : Nat → List (String × String) → HttpResponse
  | connError : String → HttpResponse
  | timeout : HttpResponse
  | raised : String → HttpResponse
  deriving DecidableEq, Repr

/-- The environment of one `HTTPAdapter.test_connectivity` call: what the
direct HEAD request would do, and what the two remote commands of the
kubectl branch would do. -/
structure HttpProbeEnv where
  resp : HttpResponse
  elapsed : ℚ
  curl : ExecResult
  tcp : ExecResult
  curlElapsed : ℚ
  tcpElapsed : ℚ
  deriving DecidableEq, Repr

/-- The direct branch of `HTTPAdapter.test_connectivity`
(http_adapter.py lines 39-91): HEAD request, any status below 500 counts
as reachable, each caught exception becomes a failed result. -/
def HTTPAdapter.test_connectivity_direct (base_url : Url) (timeout : Nat)
    (resp : HttpResponse) (elapsed : ℚ) : ConnectionResult :=
  match resp with
  | .status code headers =>
    if code < 500 then
      { success := true
        duration_ms := elapsed * 1000
        message := some ("Successfully connected to " ++ base_url.raw)
        metadata := [("url", Value.str base_url.raw), ("status_code", Value.num code),
          ("headers", Value.strMap headers)] }
    else
      { success := false
        duration_ms := elapsed * 1000
        error := some ("Server error: HTTP " ++ pyIntStr code) }
  | .connError m =>
    { success := false
      duration_ms := elapsed * 1000
      error := some ("Connection failed: " ++ m) }
  | .timeout =>
    { success := false
      duration_ms := elapsed * 1000
      error := some ("Connection timeout after " ++ pyIntStr timeout ++ "s") }
  | .raised m =>
    { success := false
      duration_ms := elapsed * 1000
      error := some ("HTTP connectivity test failed: " ++ m) }

/-- `HTTPAdapter.test_connectivity` (http_adapter.py line 31): delegates to
the kubectl executor's `test_http` when a `_kubectl` context is present,
otherwise probes directly. -/
def HTTPAdapter.test_connectivity (cfg : HTTPConfig) (timeout : Nat)
    (env : HttpProbeEnv) : ConnectionResult :=
  match cfg.kubectl with
  | some ctx =>
    KubectlAdapter.test_http ctx.ns ctx.pod cfg.base_url env.curl env.tcp
      env.curlElapsed env.tcpElapsed
  | none => HTTPAdapter.test_connectivity_direct cfg.base_url timeout env.resp env.elapsed

/-! ## src/infrastructure/kafka_adapter.py -/

/-- A produced/consumed message payload: a Python dict of JSON values,
like `Metadata`. -/
abbrev Payload := Metadata

/-- The environment of one `KafkaAdapter.test_topic_access` call
(kafka_adapter.py line 111): what the consumer-side operations of the
READ branch would do (consumer construction plus
`partitions_for_topic`, which returns a partition set or `None`), and
what the producer-side operations of the WRITE branch would do.
An `error` is the message of the exception the adapter catches. -/
structure KafkaTopicEnv where
  consume : Except String (Option (List Nat))
  produce : Except String (Option (List Nat))
  elapsed : ℚ
  deriving Repr

/-- `KafkaAdapter.test_topic_access` (kafka_adapter.py lines 111-173).
The Python body is a `try` whose `if access_type == 'READ'/elif 'WRITE'`
chain has no `else`: when `access_type` is neither, the function falls off
the end of the `try` block and returns `None`, hence the `Option` result
type of this embedding. -/
def KafkaAdapter.test_topic_access (topic_name access_type : String)
    (env : KafkaTopicEnv) : Option ConnectionResult :=
  if access_type = "READ" then
    match env.consume with
    | .error e =>
      some { success := false
             duration_ms := env.elapsed * 1000
             error := some ("Topic access test failed for '" ++ topic_name ++ "': " ++ e) }
    | .ok partitions =>
      some { success := true
             duration_ms := env.elapsed * 1000
             message := some ("Read access to topic '" ++ topic_name ++ "' verified")
             metadata := [("topic", Value.str topic_name),
               ("partitions", Value.num (match partitions with
                 | some ps => ps.length
                 | none => 0)),
               ("access_type", Value.str access_type)] }
  else if access_type = "WRITE" then
    match env.produce with
    | .error e =>
      some { success := false
             duration_ms := env.elapsed * 1000
             error := some ("Topic access test failed for '" ++ topic_name ++ "': " ++ e) }
    | .ok _ =>
      some { success := true
             duration_ms := env.elapsed * 1000
             message := some ("Write access to topic '" ++ topic_name ++ "' verified")
             metadata := [("topic", Value.str topic_name),
               ("access_type", Value.str access_type)] }
  else none

/-- The environment of one `KafkaAdapter.test_produce_consume` call
(kafka_adapter.py line 175): the millisecond clock read at probe start
(`int(time.time() * 1000)`), what producing the message does
(`future.get(timeout=10)` yields `(partition, offset)` or raises), and
what the consumer side does (construction, assign and seek followed by the
bounded iteration, which yields the payloads observed within
`consumer_timeout_ms`, or raises). -/
structure KafkaRoundTripEnv where
  clock_ms : Nat
  produceSend : Except String (Nat × Nat)
  consumed : Except String (List Payload)
  elapsed : ℚ
  deriving Repr

/-- The correlation token `test_id = f"test_{int(time.time() * 1000)}"`
(kafka_adapter.py line 188). -/
def KafkaAdapter.test_id (clock_ms : Nat) : String := "test_" ++ pyIntStr clock_ms

/-- The payload actually written: `test_message['test_id'] = test_id`
(kafka_adapter.py line 189) mutates the caller's dict before the send. -/
def KafkaAdapter.sent_payload (test_message : Payload) (clock_ms : Nat) : Payload :=
  setKey test_message "test_id" (Value.str (KafkaAdapter.test_id clock_ms))

/-- `KafkaAdapter.test_produce_consume` (kafka_adapter.py lines 175-252):
produce with a fresh correlation token, seek to the produced offset,
consume within the bound, and succeed only on an exact token match; a
successful write with no matching consumed payload is the distinct
"produced but not consumed" failure, any caught exception the generic
"Produce/consume test failed" one. -/
def KafkaAdapter.test_produce_consume (topic_name : String)
    (test_message : Payload) (env : KafkaRoundTripEnv) : ConnectionResult :=
  let _msg := KafkaAdapter.sent_payload test_message env.clock_ms
  let tid := KafkaAdapter.test_id env.clock_ms
  match env.produceSend with
  | .error e =>
    { success := false
      duration_ms := env.elapsed * 1000
      error := some ("Produce/consume test failed: " ++ e) }
  | .ok (partition, offset) =>
    match env.consumed with
    | .error e =>
      { success := false
        duration_ms := env.elapsed * 1000
        error := some ("Produce/consume test failed: " ++ e) }
    | .ok msgs =>
      if msgs.any (fun m => getKey m "test_id" == some (Value.str tid)) then
        { success := true
          duration_ms := env.elapsed * 1000
          message := some ("Successfully produced and consumed message on topic '"
            ++ topic_name ++ "'")
          metadata := [("topic", Value.str topic_name),
            ("partition", Value.num partition), ("offset", Value.num offset),
            ("test_id", Value.str tid)] }
      else
        { success := false
          duration_ms := env.elapsed * 1000
          error := some ("Message produced but not consumed on topic '"
            ++ topic_name ++ "'") }

/-! ## src/usecases/base_usecase.py -/

/-- The kubectl context a `BaseServiceUseCase.__init__` builds in kubectl
mode (base_usecase.py lines 31-47): `find_pod` succeeding yields the
context; its `RuntimeError` is caught and leaves the context `None`. In
direct mode no context is built. -/
def BaseServiceUseCase.kubectl_ctx (kubectl_mode : Bool) (ns : String)
    (find_pod_result : Except String String) : Option KubectlCtx :=
  if kubectl_mode then
    match find_pod_result with
    | .ok pod => some { ns := ns, pod := pod }
    | .error _ => none
  else none

/-- `BaseServiceUseCase._k` (base_usecase.py line 49) specialised to an
HTTP adapter config: inject the kubectl context only when kubectl mode is
active and discovery succeeded, otherwise return the config unchanged. -/
def BaseServiceUseCase.inject_k (kubectl_mode : Bool) (ctx : Option KubectlCtx)
    (cfg : HTTPConfig) : HTTPConfig :=
  if kubectl_mode = false ∨ ctx = none then cfg
  else { cfg with kubectl := ctx }

/-- `BaseServiceUseCase._create_test_result` (base_usecase.py line 109):
convert an adapter's `ConnectionResult` into a `TestResult`; a successful
Outcome becomes a passed record, a failed one a failed record. -/
def BaseServiceUseCase.create_test_result (service_name test_name : String)
    (category : TestCategory) (protocol : Protocol)
    (connection_result : ConnectionResult) (metadata : Option Metadata)
    (timestamp : Nat := 0) : TestResult :=
  let status := if connection_result.success then TestStatus.passed else TestStatus.failed
  let result_metadata :=
    match metadata with
    | some m => updateDict connection_result.metadata m
    | none => connection_result.metadata
  { test_name := test_name
    service_name := service_name
    category := category
    protocol := protocol
    status := status
    duration_ms := connection_result.duration_ms
    message := connection_result.message
    error := connection_result.error
    metadata := result_metadata
    timestamp := timestamp }

/-- The synthetic record `run_all_tests` appends when a phase raises
(base_usecase.py lines 88-96). -/
def BaseServiceUseCase.suite_execution_error (service_name e : String) : TestResult :=
  { test_name := "test_suite_execution"
    service_name := service_name
    category := TestCategory.functional
    protocol := Protocol.http
    status := TestStatus.error
    duration_ms := 0
    error := some e }

/-- What one run of a plan's two phases would produce: each abstract
phase either returns its list of records or raises (`error`), plus the
`datetime.utcnow()` readings taken at suite start and in the `finally`
block. -/
structure PlanPhases where
  connectivity : Except String (List TestResult)
  functional : Except String (List TestResult)
  t_start : Nat
  t_end : Nat
  deriving Repr

/-- `BaseServiceUseCase.run_all_tests` (base_usecase.py lines 70-107):
mark the start time; extend the suite with the connectivity records, then
with the functional records; a raise from either phase is caught once and
turned into a single `suite_execution_error` record (a connectivity raise
skips the functional phase); the completion time is set in a `finally`
block on every path. -/
def BaseServiceUseCase.run_all_tests (suite : ServiceTestSuite)
    (ph : PlanPhases) : ServiceTestSuite :=
  let s := { suite with started_at := some ph.t_start }
  let s :=
    match ph.connectivity with
    | .error e =>
      { s with results := s.results ++
          [BaseServiceUseCase.suite_execution_error suite.service_name e] }
    | .ok connectivity_results =>
      match ph.functional with
      | .error e =>
        { s with results := s.results ++ connectivity_results ++
            [BaseServiceUseCase.suite_execution_error suite.service_name e] }
      | .ok functional_results =>
        { s with results := s.results ++ connectivity_results ++ functional_results }
  { s with completed_at := some ph.t_end }

/-! ## src/handlers/cli_handler.py — orchestrator -/

/-- One dispatched plan as `CLIHandler.run_all_tests` sees it
(cli_handler.py lines 206-213): constructing the use case either raises
(`constructError`) or yields a fresh suite, and running it is
`BaseServiceUseCase.run_all_tests` over the plan's phases (which never
raises). -/
structure PlanDispatch where
  constructError : Option String
  suite : ServiceTestSuite
  phases : PlanPhases
  deriving Repr

/-- The dispatch loop of `CLIHandler.run_all_tests` (cli_handler.py lines
206-213): a plan whose construction raises is logged and skipped; every
other plan's suite is appended in order. -/
def CLIHandler.dispatch (plans : List PlanDispatch) : List ServiceTestSuite :=
  plans.foldl (fun suites p =>
    match p.constructError with
    | some _ => suites
    | none => suites ++ [BaseServiceUseCase.run_all_tests p.suite p.phases]) []

/-- `CLIHandler.run_all_tests` (cli_handler.py lines 191-222): build the
report, dispatch every registered plan sequentially, and close the report
unconditionally. -/
def CLIHandler.run_all_tests (environment execution_id : String) (t0 t1 : Nat)
    (plans : List PlanDispatch) : TestExecutionReport :=
  { environment := environment
    execution_id := execution_id
    suites := CLIHandler.dispatch plans
    started_at := some t0
    completed_at := some t1 }

/-! ## src/usecases/cfk/observability_api_usecase.py -/

/-- `ObservabilityApiUseCase._skipped` (observability_api_usecase.py line
33): the record the disabled observability-api plan returns directly from
both phases, bypassing `_create_test_result`. -/
def ObservabilityApiUseCase.skipped (service_name test_name : String)
    (protocol : Protocol) : TestResult :=
  { test_name := test_name
    service_name := service_name
    category := TestCategory.connectivity
    protocol := protocol
    status := TestStatus.skipped
    duration_ms := 0
    message := some "Service disabled - skipped" }

/-! ## Helper lemmas -/

/-- Per-suite form of `count_status_partition`. -/
theorem suite_counts_partition (s : ServiceTestSuite) :
    s.passed_count + s.failed_count + s.error_count + s.skipped_count = s.total_count :=
  count_status_partition s.results

/-- Overwriting branch of a dict assignment: when some entry matches the
key, the rewritten list's first match is the new entry. -/
theorem find_map_overwrite (k : String) (v : Value) :
    ∀ m : Metadata, m.any (fun p => p.1 == k) = true →
      (m.map (fun p => if p.1 == k then (k, v) else p)).find? (fun p => p.1 == k) =
        some (k, v) := by
  intro m
  induction m with
  | nil => intro h; simp at h
  | cons p ps ih =>
    intro h
    by_cases hp : (p.1 == k) = true
    · rw [List.map_cons, if_pos hp,
        List.find?_cons_of_pos (p := fun q : String × Value => q.1 == k) _ (by simp)]
    · rw [List.map_cons, if_neg hp,
        List.find?_cons_of_neg (p := fun q : String × Value => q.1 == k) _ hp]
      simp only [List.any_cons, hp, Bool.false_or] at h
      exact ih h

/-- Appending branch of a dict assignment: when no entry matches the key,
the first match of the extended list is the appended entry. -/
theorem find_append_fresh (k : String) (v : Value) :
    ∀ m : Metadata, m.any (fun p => p.1 == k) = false →
      (m ++ [(k, v)]).find? (fun p => p.1 == k) = some (k, v) := by
  intro m
  induction m with
  | nil =>
    intro h
    rw [List.nil_append, List.find?_cons_of_pos (p := fun q : String × Value => q.1 == k) _ (by simp)]
  | cons p ps ih =>
    intro h
    simp only [List.any_cons, Bool.or_eq_false_iff] at h
    rw [List.cons_append,
      List.find?_cons_of_neg (p := fun q : String × Value => q.1 == k) _ (by simp [h.1]), ih h.2]

/-- After a dict assignment, looking the key up yields the new value. -/
theorem getKey_setKey (m : Metadata) (k : String) (v : Value) :
    getKey (setKey m k v) k = some v := by
  unfold getKey setKey
  by_cases h : m.any (fun p => p.1 == k)
  · rw [if_pos h, find_map_overwrite k v m h]; rfl
  · rw [if_neg h, find_append_fresh k v m (by rwa [Bool.not_eq_true] at h)]; rfl

/-- Two string concatenations whose left parts start with different
characters are different strings. -/
theorem append_ne_of_head_ne (p₁ p₂ t₁ t₂ : String) (c₁ c₂ : Char)
    (h₁ : p₁.data.head? = some c₁) (h₂ : p₂.data.head? = some c₂) (hc : c₁ ≠ c₂) :
    p₁ ++ t₁ ≠ p₂ ++ t₂ := by
  intro h
  apply hc
  have hd := congrArg String.data h
  rw [String.data_append, String.data_append] at hd
  have hh := congrArg List.head? hd
  rw [List.head?_append_of_ne_nil _ (by intro hn; rw [hn] at h₁; simp at h₁),
    List.head?_append_of_ne_nil _ (by intro hn; rw [hn] at h₂; simp at h₂)] at hh
  rw [h₁, h₂] at hh
  exact Option.some.inj hh

set_option maxRecDepth 10000 in
/-- For a three-digit number, the decimal rendering starts with the digit 2
exactly when the number lies in the 2xx range. -/
theorem pyStartsWith_pyIntStr_two (n : Nat) (h1 : 100 ≤ n) (h2 : n ≤ 599) :
    pyStartsWith (pyIntStr n) "2" = decide (200 ≤ n ∧ n < 300) := by
  have hb : ∀ m < 600, 100 ≤ m →
      pyStartsWith (pyIntStr m) "2" = decide (200 ≤ m ∧ m < 300) := by decide
  exact hb n (by omega) h1

/-- The correlation token generator is injective in the millisecond clock. -/
theorem test_id_inj (a b : Nat) (h : KafkaAdapter.test_id a = KafkaAdapter.test_id b) :
    a = b := by
  unfold KafkaAdapter.test_id at h
  have hd := congrArg String.data h
  rw [String.data_append, String.data_append] at hd
  have := List.append_cancel_left hd
  exact pyIntStr_inj (by apply congrArg String.mk this)

/-! ## Claim theorems -/

/-- C8: for every ExecutionReport, `total_tests` is the sum of the
per-suite `total_count`s, and the report's total passed, failed, error and
skipped counts (each the sum of the corresponding per-suite count) add up
to `total_tests`, because every TestRecord carries exactly one of the four
statuses. -/
theorem report_totals_consistent (r : TestExecutionReport) :
    r.total_tests = (r.suites.map ServiceTestSuite.total_count).sum ∧
    r.total_passed + r.total_failed + r.total_errors + r.total_skipped =
      r.total_tests := by
  refine ⟨rfl, ?_⟩
  unfold TestExecutionReport.total_passed TestExecutionReport.total_failed
    TestExecutionReport.total_errors TestExecutionReport.total_skipped
    TestExecutionReport.total_tests
  induction r.suites with
  | nil => rfl
  | cons s ss ih =>
    simp only [List.map_cons, List.sum_cons]
    have hs := suite_counts_partition s
    omega

/-- C9: a suite with no results has `success_rate = 0` (the division is
guarded), and a suite with results has
`success_rate = passed_count / total_count * 100`. -/
theorem success_rate_guarded (s : ServiceTestSuite) :
    (s.results = [] → s.success_rate = 0) ∧
    (s.results ≠ [] →
      s.success_rate = ((s.passed_count : ℚ) / (s.total_count : ℚ)) * 100) := by
  constructor
  · intro h
    simp [ServiceTestSuite.success_rate, ServiceTestSuite.total_count, h]
  · intro h
    have hne : s.total_count ≠ 0 := by
      simpa [ServiceTestSuite.total_count, List.length_eq_zero] using h
    simp [ServiceTestSuite.success_rate, hne]

/-- C9 witness: both branches at concrete suites (an empty one and one
holding a single passed record). -/
theorem success_rate_guarded_witness :
    ({ service_name := "svc", ns := "ns1" } : ServiceTestSuite).success_rate = 0 ∧
    ({ service_name := "svc", ns := "ns1",
       results := [{ test_name := "t",
                     service_name := "svc",
                     category := TestCategory.connectivity,
                     protocol := Protocol.http,
                     status := TestStatus.passed,
                     duration_ms := 5 },
                   { test_name := "u",
                     service_name := "svc",
                     category := TestCategory.connectivity,
                     protocol := Protocol.http,
                     status := TestStatus.failed,
                     duration_ms := 5 }] } :
      ServiceTestSuite).success_rate = 50 := by
  constructor
  · exact (success_rate_guarded _).1 rfl
  · rw [(success_rate_guarded _).2 (by decide)]
    norm_num [ServiceTestSuite.passed_count, ServiceTestSuite.total_count,
      List.countP, List.countP.go]
    norm_num [show (TestStatus.failed == TestStatus.passed) = false from rfl]

/-- C1: `KafkaAdapter.test_topic_access` does not return an Outcome on
every input — called with an `access_type` that is neither `READ` nor
`WRITE` and a healthy broker (no exception), the Python body falls off the
end of its `try` block, so the adapter returns `None` instead of a failed
Outcome. -/
theorem test_topic_access_admin_no_outcome :
    KafkaAdapter.test_topic_access "dev.backoffice.in.request.data.json" "ADMIN"
      { consume := Except.ok (some [0, 1]),
        produce := Except.ok (some [0, 1]),
        elapsed := 1 / 100 } = none := rfl

/-- C4: in kubectl mode with no running pod matching the target label,
`find_pod` raises the NotFound `RuntimeError`, `__init__` catches it and
leaves the kubectl context `None`, `_k` then hands the adapter its config
unchanged — so the HTTP connectivity check silently runs in direct mode
and (here, with the endpoint answering 200 to the direct HEAD request)
yields a passed record, not a skipped or error one. -/
theorem kubectl_discovery_failure_falls_back_direct :
    KubectlAdapter.find_pod "cfk-out" "pso-out-mapping" (KubectlGetPods.lines "") =
      Except.error "No running pod found for app=pso-out-mapping in namespace cfk-out" ∧
    (BaseServiceUseCase.create_test_result "pso-out-mapping" "http_connectivity"
      TestCategory.connectivity Protocol.http
      (HTTPAdapter.test_connectivity
        (BaseServiceUseCase.inject_k true
          (BaseServiceUseCase.kubectl_ctx true "cfk-out"
            (KubectlAdapter.find_pod "cfk-out" "pso-out-mapping" (KubectlGetPods.lines "")))
          { base_url := { raw := "http://pso-out-mapping:8080", scheme := "http",
                          hostname := some "pso-out-mapping", port := some 8080 } })
        30
        { resp := HttpResponse.status 200 [], elapsed := 1 / 100,
          curl := { rc := 0, stdout := "", stderr := "" },
          tcp := { rc := 0, stdout := "", stderr := "" },
          curlElapsed := 0, tcpElapsed := 0 })
      none).status = TestStatus.passed := by
  constructor
  · rfl
  · rfl

/-- C2: `run_all_tests` never raises; a phase exception becomes exactly one
synthetic error record appended after everything already gathered (a
functional-phase exception keeps the connectivity records), and the
completion timestamp is set on every exit path. -/
theorem run_all_tests_phase_containment (suite : ServiceTestSuite) (ph : PlanPhases) :
    (BaseServiceUseCase.run_all_tests suite ph).completed_at = some ph.t_end ∧
    (BaseServiceUseCase.run_all_tests suite ph).started_at = some ph.t_start ∧
    (∀ e, ph.connectivity = Except.error e →
      (BaseServiceUseCase.run_all_tests suite ph).results =
        suite.results ++ [BaseServiceUseCase.suite_execution_error suite.service_name e]) ∧
    (∀ cr e, ph.connectivity = Except.ok cr → ph.functional = Except.error e →
      (BaseServiceUseCase.run_all_tests suite ph).results =
        suite.results ++ cr ++
          [BaseServiceUseCase.suite_execution_error suite.service_name e]) ∧
    (∀ cr fr, ph.connectivity = Except.ok cr → ph.functional = Except.ok fr →
      (BaseServiceUseCase.run_all_tests suite ph).results =
        suite.results ++ cr ++ fr) ∧
    (∀ e, (BaseServiceUseCase.suite_execution_error suite.service_name e).status =
      TestStatus.error) := by
  obtain ⟨c, f, ts, te⟩ := ph
  cases c <;> cases f <;>
    simp_all [BaseServiceUseCase.run_all_tests, BaseServiceUseCase.suite_execution_error]

/-- C2 witness: a concrete plan whose functional phase raises keeps the
connectivity record, appends the one synthetic error record, and closes
the suite. -/
theorem run_all_tests_phase_containment_witness :
    (BaseServiceUseCase.run_all_tests { service_name := "svc", ns := "ns1" }
        { connectivity := Except.ok [{ test_name := "t",
                                       service_name := "svc",
                                       category := TestCategory.connectivity,
                                       protocol := Protocol.http,
                                       status := TestStatus.passed,
                                       duration_ms := 5 }],
          functional := Except.error "boom", t_start := 10, t_end := 20 }).results =
      [{ test_name := "t",
         service_name := "svc",
         category := TestCategory.connectivity,
         protocol := Protocol.http,
         status := TestStatus.passed,
         duration_ms := 5 },
       BaseServiceUseCase.suite_execution_error "svc" "boom"] ∧
    (BaseServiceUseCase.run_all_tests { service_name := "svc", ns := "ns1" }
        { connectivity := Except.ok [{ test_name := "t",
                                       service_name := "svc",
                                       category := TestCategory.connectivity,
                                       protocol := Protocol.http,
                                       status := TestStatus.passed,
                                       duration_ms := 5 }],
          functional := Except.error "boom", t_start := 10, t_end := 20 }).completed_at =
      some 20 := by
  have h := run_all_tests_phase_containment { service_name := "svc", ns := "ns1" }
    { connectivity := Except.ok [{ test_name := "t",
                                   service_name := "svc",
                                   category := TestCategory.connectivity,
                                   protocol := Protocol.http,
                                   status := TestStatus.passed,
                                   duration_ms := 5 }],
      functional := Except.error "boom", t_start := 10, t_end := 20 }
  exact ⟨h.2.2.2.1 _ "boom" rfl rfl, h.1⟩

/-- C3: with three constructible plans of which the second one's functional
phase raises, the report holds exactly the three suites in order, the
second suite contains at least one error-status record, and the first and
third suites are exactly the ones produced when the second plan's
functional phase instead returns normally. -/
theorem dispatch_isolates_failing_plan (p1 p2 p3 : PlanDispatch)
    (cr fr' : List TestResult) (e : String) (env eid : String) (t0 t1 : Nat)
    (h1 : p1.constructError = none) (h2 : p2.constructError = none)
    (h3 : p3.constructError = none)
    (hc : p2.phases.connectivity = Except.ok cr)
    (hf : p2.phases.functional = Except.error e) :
    (CLIHandler.run_all_tests env eid t0 t1 [p1, p2, p3]).suites =
      [BaseServiceUseCase.run_all_tests p1.suite p1.phases,
       BaseServiceUseCase.run_all_tests p2.suite p2.phases,
       BaseServiceUseCase.run_all_tests p3.suite p3.phases] ∧
    1 ≤ (BaseServiceUseCase.run_all_tests p2.suite p2.phases).error_count ∧
    (CLIHandler.run_all_tests env eid t0 t1
        [p1, { p2 with phases := { p2.phases with functional := Except.ok fr' } },
         p3]).suites =
      [BaseServiceUseCase.run_all_tests p1.suite p1.phases,
       BaseServiceUseCase.run_all_tests p2.suite
         { p2.phases with functional := Except.ok fr' },
       BaseServiceUseCase.run_all_tests p3.suite p3.phases] := by
  refine ⟨?_, ?_, ?_⟩
  · simp [CLIHandler.run_all_tests, CLIHandler.dispatch, h1, h2, h3]
  · have hres : (BaseServiceUseCase.run_all_tests p2.suite p2.phases).results =
        p2.suite.results ++ cr ++
          [BaseServiceUseCase.suite_execution_error p2.suite.service_name e] := by
      simp [BaseServiceUseCase.run_all_tests, hc, hf]
    unfold ServiceTestSuite.error_count
    rw [hres]
    have hst : ((BaseServiceUseCase.suite_execution_error p2.suite.service_name e).status
        == TestStatus.error) = true := rfl
    simp only [List.countP_append, List.countP_cons, hst, if_true]
    omega
  · simp [CLIHandler.run_all_tests, CLIHandler.dispatch, h1, h2, h3]

/-- C3 witness: the theorem at three concrete plans, the second of which
raises "boom" in its functional phase: the report holds three suites and
the second suite holds an error-status record. -/
theorem dispatch_isolates_failing_plan_witness :
    (CLIHandler.run_all_tests "dev" "exec-1" 0 9
        [{ constructError := none,
           suite := { service_name := "s1", ns := "n1" },
           phases := { connectivity := Except.ok [], functional := Except.ok [],
                       t_start := 1, t_end := 2 } },
         { constructError := none,
           suite := { service_name := "s2", ns := "n2" },
           phases := { connectivity := Except.ok [], functional := Except.error "boom",
                       t_start := 3, t_end := 4 } },
         { constructError := none,
           suite := { service_name := "s3", ns := "n3" },
           phases := { connectivity := Except.ok [], functional := Except.ok [],
                       t_start := 5, t_end := 6 } }]).suites.length = 3 ∧
    1 ≤ (BaseServiceUseCase.run_all_tests { service_name := "s2", ns := "n2" }
        { connectivity := Except.ok [], functional := Except.error "boom",
          t_start := 3, t_end := 4 }).error_count := by
  have h := dispatch_isolates_failing_plan
    { constructError := none,
      suite := { service_name := "s1", ns := "n1" },
      phases := { connectivity := Except.ok [], functional := Except.ok [],
                  t_start := 1, t_end := 2 } }
    { constructError := none,
      suite := { service_name := "s2", ns := "n2" },
      phases := { connectivity := Except.ok [], functional := Except.error "boom",
                  t_start := 3, t_end := 4 } }
    { constructError := none,
      suite := { service_name := "s3", ns := "n3" },
      phases := { connectivity := Except.ok [], functional := Except.ok [],
                  t_start := 5, t_end := 6 } }
    [] [] "boom" "dev" "exec-1" 0 9 rfl rfl rfl rfl rfl
  refine ⟨?_, h.2.1⟩
  rw [h.1]
  rfl

/-- C5: the direct-mode HTTP connectivity probe treats every response
below 500 (404 included) as reachable, and every 5xx response as a
failure whose error string contains the status code. -/
theorem http_connectivity_direct_5xx_boundary (cfg : HTTPConfig) (timeout : Nat)
    (env : HttpProbeEnv) (code : Nat) (headers : List (String × String))
    (hk : cfg.kubectl = none) (hr : env.resp = HttpResponse.status code headers) :
    (code < 500 → (HTTPAdapter.test_connectivity cfg timeout env).success = true) ∧
    (500 ≤ code →
      (HTTPAdapter.test_connectivity cfg timeout env).success = false ∧
      (HTTPAdapter.test_connectivity cfg timeout env).error =
        some ("Server error: HTTP " ++ pyIntStr code) ∧
      ∃ pre post, (HTTPAdapter.test_connectivity cfg timeout env).error =
        some (pre ++ pyIntStr code ++ post)) := by
  have heq : HTTPAdapter.test_connectivity cfg timeout env =
      HTTPAdapter.test_connectivity_direct cfg.base_url timeout
        (HttpResponse.status code headers) env.elapsed := by
    unfold HTTPAdapter.test_connectivity
    rw [hk, hr]
  constructor
  · intro h
    rw [heq]
    simp only [HTTPAdapter.test_connectivity_direct]
    rw [if_pos h]
  · intro h
    rw [heq]
    simp only [HTTPAdapter.test_connectivity_direct]
    rw [if_neg (by omega)]
    refine ⟨rfl, rfl, "Server error: HTTP ", "", ?_⟩
    rw [String.append_empty]

/-- C5 witness: a 503 response fails with "503" in the error string; a 404
response counts as reachable. -/
theorem http_connectivity_direct_5xx_boundary_witness :
    (HTTPAdapter.test_connectivity
        { base_url := { raw := "http://svc:8080", scheme := "http",
                        hostname := some "svc", port := some 8080 } } 30
        { resp := HttpResponse.status 503 [], elapsed := 1 / 100,
          curl := { rc := 0, stdout := "", stderr := "" },
          tcp := { rc := 0, stdout := "", stderr := "" },
          curlElapsed := 0, tcpElapsed := 0 }).success = false ∧
    (HTTPAdapter.test_connectivity
        { base_url := { raw := "http://svc:8080", scheme := "http",
                        hostname := some "svc", port := some 8080 } } 30
        { resp := HttpResponse.status 503 [], elapsed := 1 / 100,
          curl := { rc := 0, stdout := "", stderr := "" },
          tcp := { rc := 0, stdout := "", stderr := "" },
          curlElapsed := 0, tcpElapsed := 0 }).error =
      some "Server error: HTTP 503" ∧
    (HTTPAdapter.test_connectivity
        { base_url := { raw := "http://svc:8080", scheme := "http",
                        hostname := some "svc", port := some 8080 } } 30
        { resp := HttpResponse.status 404 [], elapsed := 1 / 100,
          curl := { rc := 0, stdout := "", stderr := "" },
          tcp := { rc := 0, stdout := "", stderr := "" },
          curlElapsed := 0, tcpElapsed := 0 }).success = true := by
  have h503 := http_connectivity_direct_5xx_boundary
    { base_url := { raw := "http://svc:8080", scheme := "http",
                    hostname := some "svc", port := some 8080 } } 30
    { resp := HttpResponse.status 503 [], elapsed := 1 / 100,
      curl := { rc := 0, stdout := "", stderr := "" },
      tcp := { rc := 0, stdout := "", stderr := "" },
      curlElapsed := 0, tcpElapsed := 0 } 503 [] rfl rfl
  have h404 := http_connectivity_direct_5xx_boundary
    { base_url := { raw := "http://svc:8080", scheme := "http",
                    hostname := some "svc", port := some 8080 } } 30
    { resp := HttpResponse.status 404 [], elapsed := 1 / 100,
      curl := { rc := 0, stdout := "", stderr := "" },
      tcp := { rc := 0, stdout := "", stderr := "" },
      curlElapsed := 0, tcpElapsed := 0 } 404 [] rfl rfl
  refine ⟨(h503.2 (by omega)).1, ?_, h404.1 (by omega)⟩
  rw [(h503.2 (by omega)).2.1]
  decide

/-- C6: a remote HTTP probe whose curl command exits 127 re-attempts as a
TCP probe against the host and port parsed from the URL, recording the
fallback reason (and the parsed host/port) in the metadata, with success
decided by the TCP one-liner; for any other exit code, success holds
exactly when the command exits 0 and the captured status code lies in the
2xx range. -/
theorem kubectl_http_probe_fallback_and_2xx (ns pod : String) (u : Url)
    (curl tcp : ExecResult) (curlElapsed tcpElapsed : ℚ) :
    (curl.rc = 127 →
      getKey (KubectlAdapter.test_http ns pod u curl tcp
          curlElapsed tcpElapsed).metadata "fallback" =
        some (Value.str "tcp (curl not available)") ∧
      getKey (KubectlAdapter.test_http ns pod u curl tcp
          curlElapsed tcpElapsed).metadata "host" =
        some (Value.str (u.hostname.getD "")) ∧
      getKey (KubectlAdapter.test_http ns pod u curl tcp
          curlElapsed tcpElapsed).metadata "port" =
        some (Value.num (u.port.getD (if u.scheme = "https" then 443 else 80))) ∧
      ((KubectlAdapter.test_http ns pod u curl tcp
          curlElapsed tcpElapsed).success = true ↔
        (tcp.rc = 0 ∧ pyContainsStr tcp.stdout "ok" = true))) ∧
    (∀ n : Nat, curl.rc ≠ 127 → 100 ≤ n → n ≤ 599 →
      pyStrip curl.stdout = pyIntStr n →
      ((KubectlAdapter.test_http ns pod u curl tcp
          curlElapsed tcpElapsed).success = true ↔
        (curl.rc = 0 ∧ 200 ≤ n ∧ n < 300))) := by
  constructor
  · intro h127
    have hb : (curl.rc == 127) = true := by simp [h127]
    simp only [KubectlAdapter.test_http, hb, if_true]
    refine ⟨?_, ?_, ?_, ?_⟩
    · rfl
    · rfl
    · rfl
    · simp [KubectlAdapter.test_http_fallback_tcp, KubectlAdapter.test_tcp,
        Bool.and_eq_true, beq_iff_eq]
  · intro n h127 hlo hhi hs
    have hb : (curl.rc == 127) = false := by simp [h127]
    simp only [KubectlAdapter.test_http, hb, Bool.false_eq_true, if_false]
    rw [hs, pyStartsWith_pyIntStr_two n hlo hhi]
    simp [Bool.and_eq_true, beq_iff_eq, decide_eq_true_iff]

/-- C6 witness: at a concrete probe whose curl command exits 127 the
metadata records the TCP fallback against the parsed host and port, and
the probe succeeds because the TCP one-liner printed "ok". -/
theorem kubectl_http_probe_fallback_and_2xx_witness :
    getKey (KubectlAdapter.test_http "cfk-out" "pod-1"
        { raw := "http://svc:8080", scheme := "http",
          hostname := some "svc", port := some 8080 }
        { rc := 127, stdout := "", stderr := "command not found" }
        { rc := 0, stdout := "ok", stderr := "" } (1 / 100) (1 / 100)).metadata
      "fallback" = some (Value.str "tcp (curl not available)") ∧
    getKey (KubectlAdapter.test_http "cfk-out" "pod-1"
        { raw := "http://svc:8080", scheme := "http",
          hostname := some "svc", port := some 8080 }
        { rc := 127, stdout := "", stderr := "command not found" }
        { rc := 0, stdout := "ok", stderr := "" } (1 / 100) (1 / 100)).metadata
      "host" = some (Value.str "svc") ∧
    (KubectlAdapter.test_http "cfk-out" "pod-1"
        { raw := "http://svc:8080", scheme := "http",
          hostname := some "svc", port := some 8080 }
        { rc := 127, stdout := "", stderr := "command not found" }
        { rc := 0, stdout := "ok", stderr := "" } (1 / 100) (1 / 100)).success = true := by
  have h := kubectl_http_probe_fallback_and_2xx "cfk-out" "pod-1"
    { raw := "http://svc:8080", scheme := "http",
      hostname := some "svc", port := some 8080 }
    { rc := 127, stdout := "", stderr := "command not found" }
    { rc := 0, stdout := "ok", stderr := "" } (1 / 100) (1 / 100)
  obtain ⟨hfb, hhost, hport, hiff⟩ := h.1 rfl
  exact ⟨hfb, hhost, (hiff.mpr ⟨rfl, by decide⟩)⟩

/-- C7: the produce-then-consume probe embeds the clock-derived
correlation token (injective in the clock, hence fresh across distinct
clock readings) in the written payload, succeeds only when a consumed
payload bears exactly that token, and a successful write with no matching
consumed payload yields the distinct "produced but not consumed" failure,
whose error string never coincides with the generic error branch. -/
theorem produce_consume_round_trip (topic : String) (test_message : Payload)
    (env : KafkaRoundTripEnv) :
    getKey (KafkaAdapter.sent_payload test_message env.clock_ms) "test_id" =
      some (Value.str (KafkaAdapter.test_id env.clock_ms)) ∧
    ((KafkaAdapter.test_produce_consume topic test_message env).success = true →
      ∃ msgs, env.consumed = Except.ok msgs ∧
        ∃ m ∈ msgs, getKey m "test_id" =
          some (Value.str (KafkaAdapter.test_id env.clock_ms))) ∧
    (∀ po msgs, env.produceSend = Except.ok po → env.consumed = Except.ok msgs →
      (∀ m ∈ msgs, getKey m "test_id" ≠
        some (Value.str (KafkaAdapter.test_id env.clock_ms))) →
      (KafkaAdapter.test_produce_consume topic test_message env).success = false ∧
      (KafkaAdapter.test_produce_consume topic test_message env).error =
        some ("Message produced but not consumed on topic '" ++ topic ++ "'")) ∧
    (∀ e, ("Message produced but not consumed on topic '" ++ topic ++ "'") ≠
      ("Produce/consume test failed: " ++ e)) ∧
    (∀ a b : Nat, a ≠ b → KafkaAdapter.test_id a ≠ KafkaAdapter.test_id b) := by
  obtain ⟨ck, ps, cs, el⟩ := env
  refine ⟨getKey_setKey _ _ _, ?_, ?_, ?_, ?_⟩
  · intro hs
    cases ps with
    | error e => simp [KafkaAdapter.test_produce_consume] at hs
    | ok po =>
      obtain ⟨p, o⟩ := po
      cases cs with
      | error e => simp [KafkaAdapter.test_produce_consume] at hs
      | ok msgs =>
        refine ⟨msgs, rfl, ?_⟩
        simp only [KafkaAdapter.test_produce_consume] at hs
        by_cases hany : (msgs.any fun m =>
            getKey m "test_id" == some (Value.str (KafkaAdapter.test_id ck))) = true
        · obtain ⟨m, hm, hbeq⟩ := List.any_eq_true.mp hany
          exact ⟨m, hm, by simpa using hbeq⟩
        · rw [Bool.not_eq_true] at hany
          rw [hany] at hs
          simp at hs
  · intro po msgs hp hc hnone
    cases hp
    cases hc
    obtain ⟨p, o⟩ := po
    have hany : (msgs.any fun m =>
        getKey m "test_id" == some (Value.str (KafkaAdapter.test_id ck))) = false := by
      rw [List.any_eq_false]
      intro m hm
      simpa using hnone m hm
    simp only [KafkaAdapter.test_produce_consume]
    rw [hany]
    exact ⟨rfl, rfl⟩
  · intro e
    rw [String.append_assoc]
    exact append_ne_of_head_ne _ _ _ _ 'M' 'P' (by decide) (by decide) (by decide)
  · intro a b hab h
    exact hab (test_id_inj a b h)

/-- C7 witness: the theorem at a concrete probe (clock reading 1000, token
embedded in the written payload, distinct from the token of clock reading
1001, and the mismatch error distinct from a generic failure). -/
theorem produce_consume_round_trip_witness :
    getKey (KafkaAdapter.sent_payload [("service", Value.str "pso-out-mapping")] 1000)
        "test_id" = some (Value.str (KafkaAdapter.test_id 1000)) ∧
    KafkaAdapter.test_id 1000 ≠ KafkaAdapter.test_id 1001 ∧
    ("Message produced but not consumed on topic 'dev.out.processing.exceptions'" ≠
      "Produce/consume test failed: KafkaTimeoutError") := by
  have h := produce_consume_round_trip "dev.out.processing.exceptions"
    [("service", Value.str "pso-out-mapping")]
    { clock_ms := 1000, produceSend := Except.ok (0, 5),
      consumed := Except.ok [], elapsed := 1 }
  exact ⟨h.1, h.2.2.2.2 1000 1001 (by omega), h.2.2.2.1 "KafkaTimeoutError"⟩

/-- C10 counterexample: `ObservabilityApiUseCase._skipped` — a plan
operation of the core, returned from both phases of the disabled
observability-api plan — creates a TestRecord with skipped status without
going through the conversion helper, so it is not true that no operation
of the core ever creates a record with skipped status. -/
theorem observability_skipped_record_is_skipped :
    (ObservabilityApiUseCase.skipped "observability-api" "kafka_connectivity"
      Protocol.kafka).status = TestStatus.skipped := rfl

/-- C10 (amended): every record built by the conversion helper is passed
exactly when the Outcome succeeded and failed otherwise — never skipped
and never error — carrying duration, message and error over unchanged;
and in the base execution flow every error-status record either came in
with the suite or the phase lists, or is the synthetic containment
record. (The original claim's final clause fails: a disabled plan creates
skipped records directly, see the counterexample.) -/
theorem create_test_result_status_contract (service_name test_name : String)
    (category : TestCategory) (protocol : Protocol) (cr : ConnectionResult)
    (metadata : Option Metadata) (suite : ServiceTestSuite) (ph : PlanPhases) :
    ((BaseServiceUseCase.create_test_result service_name test_name category
        protocol cr metadata).status = TestStatus.passed ∨
      (BaseServiceUseCase.create_test_result service_name test_name category
        protocol cr metadata).status = TestStatus.failed) ∧
    ((BaseServiceUseCase.create_test_result service_name test_name category
        protocol cr metadata).status = TestStatus.passed ↔ cr.success = true) ∧
    (BaseServiceUseCase.create_test_result service_name test_name category
      protocol cr metadata).duration_ms = cr.duration_ms ∧
    (BaseServiceUseCase.create_test_result service_name test_name category
      protocol cr metadata).message = cr.message ∧
    (BaseServiceUseCase.create_test_result service_name test_name category
      protocol cr metadata).error = cr.error ∧
    (∀ r ∈ (BaseServiceUseCase.run_all_tests suite ph).results,
      r.status = TestStatus.error →
      r ∈ suite.results ∨
      (∃ l, (ph.connectivity = Except.ok l ∨ ph.functional = Except.ok l) ∧ r ∈ l) ∨
      (∃ e, (ph.connectivity = Except.error e ∨ ph.functional = Except.error e) ∧
        r = BaseServiceUseCase.suite_execution_error suite.service_name e)) := by
  refine ⟨?_, ?_, rfl, rfl, rfl, ?_⟩
  · unfold BaseServiceUseCase.create_test_result
    cases h : cr.success <;> simp [h]
  · unfold BaseServiceUseCase.create_test_result
    cases h : cr.success <;> simp [h]
  · intro r hr herr
    obtain ⟨c, f, ts, te⟩ := ph
    cases c with
    | error e =>
      simp only [BaseServiceUseCase.run_all_tests, List.mem_append,
        List.mem_singleton] at hr
      rcases hr with hr | hr
      · exact Or.inl hr
      · exact Or.inr (Or.inr ⟨e, Or.inl rfl, hr⟩)
    | ok crs =>
      cases f with
      | error e =>
        simp only [BaseServiceUseCase.run_all_tests, List.append_assoc,
          List.mem_append, List.mem_singleton] at hr
        rcases hr with hr | hr | hr
        · exact Or.inl hr
        · exact Or.inr (Or.inl ⟨crs, Or.inl rfl, hr⟩)
        · exact Or.inr (Or.inr ⟨e, Or.inr rfl, hr⟩)
      | ok frs =>
        simp only [BaseServiceUseCase.run_all_tests, List.append_assoc,
          List.mem_append] at hr
        rcases hr with hr | hr | hr
        · exact Or.inl hr
        · exact Or.inr (Or.inl ⟨crs, Or.inl rfl, hr⟩)
        · exact Or.inr (Or.inl ⟨frs, Or.inr rfl, hr⟩)

/-- C10 witness: a successful concrete Outcome converts to a passed
record carrying duration, message and error over. -/
theorem create_test_result_status_contract_witness :
    (BaseServiceUseCase.create_test_result "pso-out-mapping" "kafka_connectivity"
        TestCategory.connectivity Protocol.kafka
        { success := true, duration_ms := 12, message := some "connected",
          error := none, metadata := [] } none).status = TestStatus.passed ∧
    (BaseServiceUseCase.create_test_result "pso-out-mapping" "kafka_connectivity"
        TestCategory.connectivity Protocol.kafka
        { success := true, duration_ms := 12, message := some "connected",
          error := none, metadata := [] } none).duration_ms = 12 ∧
    (BaseServiceUseCase.create_test_result "pso-out-mapping" "kafka_connectivity"
        TestCategory.connectivity Protocol.kafka
        { success := true, duration_ms := 12, message := some "connected",
          error := none, metadata := [] } none).message = some "connected" := by
  have h := create_test_result_status_contract "pso-out-mapping" "kafka_connectivity"
    TestCategory.connectivity Protocol.kafka
    { success := true, duration_ms := 12, message := some "connected",
      error := none, metadata := [] } none
    { service_name := "pso-out-mapping", ns := "cfk-out" }
    { connectivity := Except.ok [], functional := Except.ok [],
      t_start := 0, t_end := 0 }
  exact ⟨h.2.1.mpr rfl, h.2.2.1, h.2.2.2.1⟩
